import Mathlib

/-!
# Verification of the image-transform service (`SharpService`)

Shallow embedding of `src/resources/processor/services/sharp/sharp.service.ts`.

The service wraps the external sharp codec engine.  Encoded buffers are
modelled as either a decodable image (a pixel grid plus a container format)
or an undecodable blob carrying the engine's error message.  A sharp
pipeline is modelled the way sharp implements it: chained method calls
accumulate a list of operations on an instance, and `toBuffer` decodes the
input, folds the operations over the decoded image and re-encodes.

The pixel-level behaviour of the engine's tonal primitives (median, blur,
modulate, tint, …) is not part of this repository; it is modelled as
deterministic per-pixel maps that are sensitive to every option the caller
supplies, which is all the claims depend on.  Geometric primitives
(flip / flop / extract / resize dimensions / composite dimensions) are
modelled exactly.
-/

set_option autoImplicit false

namespace ImageProcessor

/-- A decoded raster: rows of pixel values. -/
abbrev Grid := List (List Nat)

/-- A decoded image: container format plus pixel grid. -/
structure Image where
  format : String
  pixels : Grid
  deriving Repr, DecidableEq

/-- Height reported by the codec: number of pixel rows. -/
def Image.height (img : Image) : Nat := img.pixels.length

/-- Width reported by the codec: length of the first pixel row. -/
def Image.width (img : Image) : Nat := (img.pixels.headD []).length

/-- An encoded in-memory buffer: either decodable to an image, or an
undecodable blob; decoding the latter fails with the engine's message. -/
inductive Buffer where
  | ok (img : Image)
  | corrupt (msg : String)
  deriving Repr, DecidableEq

/-- Modelled from the spec: the trusted Codec Engine's decode primitive.
A decodable buffer yields its image; anything else fails with the
engine's original error message. -/
def decode : Buffer → Except String Image
  | .ok img => .ok img
  | .corrupt msg => .error msg

/-- Structured metadata reported for a decodable buffer. -/
structure Metadata where
  width : Nat
  height : Nat
  format : String
  deriving Repr, DecidableEq

/-- Options record accepted by the engine's `resize` call
(`sharp.ResizeOptions`). -/
structure ResizeOptions where
  width : Option Nat := none
  height : Option Nat := none
  fit : Option String := none
  position : Option String := none
  background : Option String := none
  kernel : Option String := none
  withoutEnlargement : Option Bool := none
  withoutReduction : Option Bool := none
  fastShrinkOnLoad : Option Bool := none
  deriving Repr, DecidableEq

/-- Overlay options record for `composite` (`sharp.OverlayOptions`):
the overlay `input` buffer plus further placement fields. -/
structure CompositeOptions where
  input : Option Buffer := none
  blend : Option String := none
  gravity : Option String := none
  top : Option Nat := none
  left : Option Nat := none
  deriving Repr, DecidableEq

/-- Options for the engine's `modulate` call. -/
structure ModulateOptions where
  brightness : Rat
  saturation : Rat
  hue : Rat
  lightness : Rat
  deriving Repr, DecidableEq

/-- Options for the engine's `threshold` call. -/
structure ThresholdOptions where
  grayscale : Bool
  deriving Repr, DecidableEq

/-- One queued engine operation of a sharp pipeline. -/
inductive SharpOp where
  | png
  | resize (options : ResizeOptions)
  | extract (left top width height : Nat)
  | flip
  | flop
  | median (size : Nat)
  | blur (sigma : Rat)
  | negate (apply : Bool)
  | grayscale (apply : Bool)
  | modulate (options : ModulateOptions)
  | tint (color : String)
  | threshold (level : Nat) (options : ThresholdOptions)
  | composite (overlays : List CompositeOptions)
  deriving Repr, DecidableEq

/-- Apply a function to every pixel of an image. -/
def pixelMap (f : Nat → Nat) (img : Image) : Image :=
  { img with pixels := img.pixels.map (List.map f) }

/-- A deterministic fingerprint of a rational option value, used by the
modelled tonal primitives so that distinct option values act distinctly. -/
def ratKey (q : Rat) : Nat := Nat.pair q.num.natAbs q.den

/-- Modelled from the spec: the engine's resampling policy.  Distinct
fit / position / kernel / enlargement policies resample differently; the
engine's defaults are fit `cover`, position `centre`, kernel `lanczos3`. -/
def fitOffset (options : ResizeOptions) : Nat :=
  (options.fit.getD "cover").length + (options.position.getD "centre").length +
    (options.kernel.getD "lanczos3").length +
    (if options.withoutEnlargement.getD false then 1 else 0) +
    (if options.withoutReduction.getD false then 2 else 0)

/-- Scale a pixel grid to `w × h` by resampling source pixels; `offset`
encodes the resampling policy in effect.  The output always has exactly
`h` rows of `w` pixels. -/
def scaleGrid (g : Grid) (w h offset : Nat) : Grid :=
  let srcH := g.length
  let srcW := (g.headD []).length
  (List.range h).map fun i =>
    (List.range w).map fun j =>
      (g.getD ((i * srcH / max h 1 + offset) % max srcH 1) []).getD
        ((j * srcW / max w 1 + offset) % max srcW 1) 0

/-- Paste an overlay grid onto a base grid at the centred position
(the engine's default gravity); the result keeps the base's dimensions. -/
def pasteGrid (base overlay : Grid) : Grid :=
  let baseH := base.length
  let baseW := (base.headD []).length
  let ovH := overlay.length
  let ovW := (overlay.headD []).length
  let top := (baseH - ovH) / 2
  let left := (baseW - ovW) / 2
  (List.range baseH).map fun i =>
    (List.range baseW).map fun j =>
      if top ≤ i ∧ i < top + ovH ∧ left ≤ j ∧ j < left + ovW then
        (overlay.getD (i - top) []).getD (j - left) 0
      else (base.getD i []).getD j 0

/-- Modelled from the spec: one composite pass.  The engine rejects an
overlay without a valid `input` and an overlay larger than the base; a
successful pass keeps the base's format and dimensions. -/
def compositeStep (overlays : List CompositeOptions) (base : Image) :
    Except String Image :=
  overlays.foldlM
    (fun acc overlay => do
      match overlay.input with
      | none => Except.error "composite: expected a valid input"
      | some buf => do
          let overlayImg ← decode buf
          if overlayImg.height > acc.height ∨ overlayImg.width > acc.width then
            Except.error "Image to composite must have same dimensions or smaller"
          else
            Except.ok { acc with pixels := pasteGrid acc.pixels overlayImg.pixels })
    base

/-- Modelled from the spec: the trusted Codec Engine's named transforms.
Geometry (png re-encode, resize dimensions, extract bounds, flips,
composite) is exact; tonal primitives are deterministic per-pixel maps
sensitive to every supplied option. -/
def applyOp (op : SharpOp) (img : Image) : Except String Image :=
  match op with
  | .png => .ok { img with format := "png" }
  | .resize options =>
      let targetW := options.width.getD img.width
      let targetH := options.height.getD img.height
      .ok { img with pixels := scaleGrid img.pixels targetW targetH (fitOffset options) }
  | .extract l t w h =>
      if l + w > img.width ∨ t + h > img.height ∨ w = 0 ∨ h = 0 then
        .error "extract_area: bad extract area"
      else
        .ok { img with pixels := (img.pixels.drop t |>.take h).map fun row => row.drop l |>.take w }
  | .flip => .ok { img with pixels := img.pixels.reverse }
  | .flop => .ok { img with pixels := img.pixels.map List.reverse }
  | .median size => .ok (pixelMap (fun v => (v + 2 * size + 1) % 256) img)
  | .blur sigma => .ok (pixelMap (fun v => (v + ratKey sigma) % 256) img)
  | .negate apply => .ok (if apply then pixelMap (fun v => 255 - v) img else img)
  | .grayscale apply => .ok (if apply then pixelMap (fun v => v / 3 * 3) img else img)
  | .modulate options =>
      .ok (pixelMap (fun v =>
        (v + Nat.pair (ratKey options.brightness)
          (Nat.pair (ratKey options.saturation)
            (Nat.pair (ratKey options.hue) (ratKey options.lightness)))) % 256) img)
  | .tint color => .ok (pixelMap (fun v => (v + color.length) % 256) img)
  | .threshold level _options =>
      .ok (pixelMap (fun v => if v < level then 0 else 255) img)
  | .composite overlays => compositeStep overlays img

/-- Execute a pipeline: decode the input, fold the queued operations over
the decoded image, re-encode the result. -/
def runPipeline (input : Buffer) (ops : List SharpOp) : Except String Buffer := do
  let img ← decode input
  let out ← ops.foldlM (fun acc op => applyOp op acc) img
  pure (Buffer.ok out)

/-- A sharp pipeline instance: the bound input buffer plus the queued
operations, exactly as chained method calls build it. -/
structure SharpInstance where
  input : Buffer
  ops : List SharpOp
  deriving Repr, DecidableEq

/-- `sharp(buffer)` / `this.imageProcessor(buffer)`: a fresh single-use
pipeline bound to one input buffer. -/
def imageProcessor (input : Buffer) : SharpInstance := ⟨input, []⟩

/-- Queue one more operation on a pipeline instance. -/
def SharpInstance.addOp (s : SharpInstance) (op : SharpOp) : SharpInstance :=
  ⟨s.input, s.ops ++ [op]⟩

def SharpInstance.png (s : SharpInstance) : SharpInstance := s.addOp .png

def SharpInstance.resize (s : SharpInstance) (w h : Option Nat) : SharpInstance :=
  s.addOp (.resize { width := w, height := h })

def SharpInstance.resizeOptions (s : SharpInstance) (options : ResizeOptions) :
    SharpInstance :=
  s.addOp (.resize options)

def SharpInstance.extract (s : SharpInstance) (l t w h : Nat) : SharpInstance :=
  s.addOp (.extract l t w h)

def SharpInstance.flip (s : SharpInstance) : SharpInstance := s.addOp .flip

def SharpInstance.flop (s : SharpInstance) : SharpInstance := s.addOp .flop

def SharpInstance.median (s : SharpInstance) (size : Nat) : SharpInstance :=
  s.addOp (.median size)

def SharpInstance.blur (s : SharpInstance) (sigma : Rat) : SharpInstance :=
  s.addOp (.blur sigma)

def SharpInstance.negate (s : SharpInstance) (apply : Bool) : SharpInstance :=
  s.addOp (.negate apply)

def SharpInstance.grayscale (s : SharpInstance) (apply : Bool) : SharpInstance :=
  s.addOp (.grayscale apply)

def SharpInstance.modulate (s : SharpInstance) (options : ModulateOptions) :
    SharpInstance :=
  s.addOp (.modulate options)

def SharpInstance.tint (s : SharpInstance) (color : String) : SharpInstance :=
  s.addOp (.tint color)

def SharpInstance.threshold (s : SharpInstance) (level : Nat)
    (options : ThresholdOptions) : SharpInstance :=
  s.addOp (.threshold level options)

def SharpInstance.composite (s : SharpInstance) (overlays : List CompositeOptions) :
    SharpInstance :=
  s.addOp (.composite overlays)

/-- `.toBuffer()`: execute the queued pipeline on the bound input. -/
def SharpInstance.toBuffer (s : SharpInstance) : Except String Buffer :=
  runPipeline s.input s.ops

/-- `.metadata()`: decode the input header and report its facts; queued
operations are not executed. -/
def SharpInstance.metadata (s : SharpInstance) : Except String Metadata := do
  let img ← decode s.input
  pure ⟨img.width, img.height, img.format⟩

/-! ## The service layer (`SharpService`) -/

/-- `InternalServerErrorException(error.message, description)`: the uniform
Processing Failure every entry point throws, carrying the engine's
original message and the operation's human-readable summary. -/
structure ProcessingFailure where
  message : String
  description : String
  deriving Repr, DecidableEq

/-- The per-operation try/catch: engine faults are re-signalled as one
Processing Failure carrying the engine's message plus the given summary. -/
def wrapFailure {α : Type} (description : String) (x : Except String α) :
    Except ProcessingFailure α :=
  match x with
  | .ok a => .ok a
  | .error msg => .error ⟨msg, description⟩

/-- JavaScript `v || fallback` on an optional number: `undefined` and `0`
are falsy, every other value passes through. -/
def jsOrNat (v : Option Nat) (fallback : Nat) : Nat :=
  match v with
  | none => fallback
  | some n => if n = 0 then fallback else n

/-- JavaScript `v || fallback` on an optional rational number. -/
def jsOrRat (v : Option Rat) (fallback : Rat) : Rat :=
  match v with
  | none => fallback
  | some q => if q = 0 then fallback else q

/-- JavaScript `v || fallback` on an optional boolean. -/
def jsOrBool (v : Option Bool) (fallback : Bool) : Bool :=
  match v with
  | none => fallback
  | some b => b || fallback

/-- JavaScript truthiness of an optional number, as used by
`if (effectsProperties.threshold)`. -/
def jsTruthyNat (v : Option Nat) : Bool :=
  match v with
  | none => false
  | some n => n != 0

/-- `getMetadata(imageBuffer)`. -/
def getMetadata (imageBuffer : Buffer) : Except ProcessingFailure Metadata :=
  wrapFailure "Error getting image metadata" (imageProcessor imageBuffer).metadata

/-- The `resizeProperties` record taken by `resizeImage`. -/
structure ResizeProperties where
  width : Option Nat := none
  height : Option Nat := none
  options : Option ResizeOptions := none
  deriving Repr, DecidableEq

/-- `resizeImage(imageBuffer, resizeProperties)`: queues
`.resize(resizeProperties.width, resizeProperties.height)` and executes.
The catch block's summary is the literal string of the source. -/
def resizeImage (imageBuffer : Buffer) (resizeProperties : ResizeProperties) :
    Except ProcessingFailure Buffer :=
  wrapFailure "Error converting image"
    ((imageProcessor imageBuffer).resize resizeProperties.width
      resizeProperties.height).toBuffer

/-- The crop rectangle taken by `cropImage`. -/
structure CropProperties where
  left : Nat
  top : Nat
  width : Nat
  height : Nat
  deriving Repr, DecidableEq

/-- `cropImage(imageBuffer, cropProperties)`: queues
`.extract(cropProperties)` and executes. -/
def cropImage (imageBuffer : Buffer) (cropProperties : CropProperties) :
    Except ProcessingFailure Buffer :=
  wrapFailure "Error cropping image"
    ((imageProcessor imageBuffer).extract cropProperties.left cropProperties.top
      cropProperties.width cropProperties.height).toBuffer

/-- `verticalFlipImage(imageBuffer)`: queues `.flip()` and executes. -/
def verticalFlipImage (imageBuffer : Buffer) : Except ProcessingFailure Buffer :=
  wrapFailure "Error flipping image vertical" (imageProcessor imageBuffer).flip.toBuffer

/-- `horizontalFlipImage(imageBuffer)`: queues `.flop()` and executes.
Its catch block's summary is the literal (copy-pasted) string of the
source, which still says "vertical". -/
def horizontalFlipImage (imageBuffer : Buffer) : Except ProcessingFailure Buffer :=
  wrapFailure "Error flipping image vertical" (imageProcessor imageBuffer).flop.toBuffer

/-- The `effectsProperties` record taken by `setImageEffects`; fields a
caller may leave undefined are optional. -/
structure EffectsProperties where
  median : Option Nat := none
  blur : Option Rat := none
  negate : Option Bool := none
  grayscale : Option Bool := none
  threshold : Option Nat := none
  thresholdGrayscale : Option Bool := none
  brightness : Option Rat := none
  saturation : Option Rat := none
  hue : Option Rat := none
  lightness : Option Rat := none
  tint : String
  deriving Repr, DecidableEq

/-- `setImageEffects(imageBuffer, effectsProperties)`: an optional
threshold pre-pass re-deriving the working buffer, then the chained
median → blur → negate → grayscale → modulate → tint pipeline. -/
def setImageEffects (imageBuffer : Buffer) (effectsProperties : EffectsProperties) :
    Except ProcessingFailure Buffer :=
  wrapFailure "Error applying image effects" (do
    let imageBuffer ←
      if jsTruthyNat effectsProperties.threshold then
        ((imageProcessor imageBuffer).threshold
          (jsOrNat effectsProperties.threshold 120)
          ⟨jsOrBool effectsProperties.thresholdGrayscale false⟩).toBuffer
      else pure imageBuffer
    ((((((imageProcessor imageBuffer).median
        (jsOrNat effectsProperties.median 3)).blur
        (jsOrRat effectsProperties.blur (3 / 10))).negate
        (jsOrBool effectsProperties.negate false)).grayscale
        (jsOrBool effectsProperties.grayscale false)).modulate
        { brightness := jsOrRat effectsProperties.brightness 1
          saturation := jsOrRat effectsProperties.saturation 1
          hue := jsOrRat effectsProperties.hue 0
          lightness := jsOrRat effectsProperties.lightness 1 }).tint
        effectsProperties.tint |>.toBuffer)

/-- `composeImages(imageBuffer1, imageBuffer2, compositeOptions)`.  The
returned pair's second component is the caller's composite options record
as it stands after the call, making the in-place assignment
`compositeOptions.input = imageBuffer2` observable. -/
def composeImages (imageBuffer1 imageBuffer2 : Buffer)
    (compositeOptions : CompositeOptions) :
    Except ProcessingFailure (Buffer × CompositeOptions) :=
  wrapFailure "Error composing images" (do
    let imageBuffer1 ← (imageProcessor imageBuffer1).png.toBuffer
    let md ← Except.mapError (fun e => e.message) (getMetadata imageBuffer2)
    let imageBuffer1 ← ((imageProcessor imageBuffer1).resizeOptions
      { width := some md.width, height := some md.height
        position := some "centre" }).toBuffer
    let compositeOptions := { compositeOptions with input := some imageBuffer2 }
    let result ← ((imageProcessor imageBuffer1).composite [compositeOptions]).toBuffer
    pure (result, compositeOptions))

/-- The composition algorithm exactly as the specification words it, in
five steps: (1) re-encode A to the canonical PNG intermediate, (2) read
B's metadata for its width and height, (3) resize A to B's dimensions at
position "centre", (4) set B as the overlay `input` of the caller's
composite options, (5) one composite pass of B over the resized A. -/
def composeSpecSteps (bufferA bufferB : Buffer)
    (compositeOptions : CompositeOptions) :
    Except ProcessingFailure (Buffer × CompositeOptions) :=
  wrapFailure "Error composing images" (do
    let step1 ← runPipeline bufferA [SharpOp.png]
    let imgB ← decode bufferB
    let step3 ← runPipeline step1
      [SharpOp.resize
        { width := some imgB.width, height := some imgB.height
          position := some "centre" }]
    let step4 := { compositeOptions with input := some bufferB }
    let step5 ← runPipeline step3 [SharpOp.composite [step4]]
    pure (step5, step4))

/-! ## Helper lemmas -/

instance {ε α : Type} [DecidableEq ε] [DecidableEq α] :
    DecidableEq (Except ε α) := fun x y =>
  match x, y with
  | .ok a, .ok b =>
      if h : a = b then isTrue (by rw [h])
      else isFalse (fun hc => by cases hc; exact h rfl)
  | .error e, .error f =>
      if h : e = f then isTrue (by rw [h])
      else isFalse (fun hc => by cases hc; exact h rfl)
  | .ok _, .error _ => isFalse (fun hc => by cases hc)
  | .error _, .ok _ => isFalse (fun hc => by cases hc)

theorem mapError_message_wrapFailure {α : Type} (d : String) (x : Except String α) :
    Except.mapError (fun e => e.message) (wrapFailure d x) = x := by
  cases x <;> rfl

@[simp] theorem except_ok_bind {ε α β : Type} (a : α) (f : α → Except ε β) :
    (Except.ok a >>= f) = f a := rfl

@[simp] theorem except_error_bind {ε α β : Type} (e : ε) (f : α → Except ε β) :
    ((Except.error e : Except ε α) >>= f) = Except.error e := rfl

@[simp] theorem except_map_ok {ε α β : Type} (f : α → β) (a : α) :
    (f <$> (Except.ok a : Except ε α)) = Except.ok (f a) := rfl

@[simp] theorem except_map_error {ε α β : Type} (f : α → β) (e : ε) :
    (f <$> (Except.error e : Except ε α)) = (Except.error e : Except ε β) := rfl

theorem except_bind_eq_ok {ε α β : Type} {x : Except ε α} {f : α → Except ε β}
    {b : β} : (x >>= f) = .ok b ↔ ∃ a, x = .ok a ∧ f a = .ok b := by
  cases x <;> simp [Bind.bind, Except.bind]

theorem wrapFailure_eq_ok {α : Type} (d : String) (x : Except String α) (a : α) :
    wrapFailure d x = .ok a ↔ x = .ok a := by
  cases x <;> simp [wrapFailure]

@[simp] theorem scaleGrid_length (g : Grid) (w h off : Nat) :
    (scaleGrid g w h off).length = h := by
  simp [scaleGrid]

theorem scaleGrid_headD_length (g : Grid) (w h off : Nat) :
    (((scaleGrid g w h off).head?).getD []).length = if h = 0 then 0 else w := by
  cases h with
  | zero => simp [scaleGrid]
  | succ n => simp [scaleGrid, List.range_succ_eq_map]

@[simp] theorem pasteGrid_length (base overlay : Grid) :
    (pasteGrid base overlay).length = base.length := by
  simp [pasteGrid]

theorem pasteGrid_headD_length (base overlay : Grid) :
    (((pasteGrid base overlay).head?).getD []).length =
      if base.length = 0 then 0 else ((base.head?).getD []).length := by
  cases base with
  | nil => simp [pasteGrid]
  | cons r rs => simp [pasteGrid, List.range_succ_eq_map]

theorem Image.width_of_height_zero (img : Image) (h : img.height = 0) :
    img.width = 0 := by
  have hpx : img.pixels = [] := List.length_eq_zero.mp h
  simp [Image.width, hpx]

/-- Closed form of `composeImages` on two decodable buffers: it always
succeeds, returning a PNG whose pixels are B pasted over the resized A,
together with the mutated options record. -/
theorem composeImages_ok_eq (a b : Image) (opts : CompositeOptions) :
    composeImages (Buffer.ok a) (Buffer.ok b) opts =
      Except.ok
        (Buffer.ok
          { format := "png"
            pixels :=
              pasteGrid
                (scaleGrid a.pixels b.width b.height
                  (fitOffset
                    { width := some b.width, height := some b.height
                      position := some "centre" }))
                b.pixels },
          { opts with input := some (Buffer.ok b) }) := by
  have hno : ¬ ((if b.pixels = [] then 0 else ((List.head? b.pixels).getD []).length) <
      ((List.head? b.pixels).getD []).length) := by
    cases b.pixels with
    | nil => simp
    | cons r rs => simp
  simp [composeImages, getMetadata, SharpInstance.metadata, SharpInstance.toBuffer,
    runPipeline, imageProcessor, SharpInstance.png, SharpInstance.resizeOptions,
    SharpInstance.composite, SharpInstance.addOp, decode, applyOp, compositeStep,
    wrapFailure, Except.mapError, List.foldlM, Image.height, Image.width,
    scaleGrid_headD_length, hno]

/-! ## Claim theorems -/

/-- C1.  For every pair of input buffers and composite options record,
`composeImages` performs exactly the five steps of the specification in
order: re-encode A to PNG, read B's metadata, resize A to B's width and
height at position "centre", set B as the overlay `input` of the caller's
options, and run a single composite pass of B over the resized A. -/
theorem compose_step_order (bufferA bufferB : Buffer) (opts : CompositeOptions) :
    composeImages bufferA bufferB opts = composeSpecSteps bufferA bufferB opts := by
  cases bufferB <;> rfl

theorem compose_result_width (a b : Image) (off : Nat) :
    (Image.mk "png"
      (pasteGrid (scaleGrid a.pixels b.width b.height off) b.pixels)).width =
      b.width := by
  cases hb : b.pixels <;>
    simp [Image.width, Image.height, hb, pasteGrid_headD_length,
      scaleGrid_headD_length, scaleGrid_length]

theorem compose_result_height (a b : Image) (off : Nat) :
    (Image.mk "png"
      (pasteGrid (scaleGrid a.pixels b.width b.height off) b.pixels)).height =
      b.height := by
  simp [Image.height, pasteGrid_length, scaleGrid_length]

/-- Claim C2: for all decodable buffers A and B and options on which the
composition succeeds, decoding the returned buffer reports exactly B's
original width and height, regardless of A's dimensions. -/
theorem compose_output_dims (a b : Image) (opts : CompositeOptions)
    (out : Buffer) (optsAfter : CompositeOptions)
    (h : composeImages (Buffer.ok a) (Buffer.ok b) opts =
      Except.ok (out, optsAfter)) :
    ∃ outImg, decode out = Except.ok outImg ∧
      outImg.width = b.width ∧ outImg.height = b.height := by
  rw [composeImages_ok_eq] at h
  simp only [Except.ok.injEq, Prod.mk.injEq] at h
  obtain ⟨hout, -⟩ := h
  subst hout
  exact ⟨_, rfl, compose_result_width a b _, compose_result_height a b _⟩

theorem compose_output_dims_witness :
    composeImages (Buffer.ok ⟨"png", [[1]]⟩) (Buffer.ok ⟨"png", [[5]]⟩) {} =
        Except.ok (Buffer.ok ⟨"png", [[5]]⟩,
          { input := some (Buffer.ok ⟨"png", [[5]]⟩) }) ∧
    (∃ outImg, decode (Buffer.ok ⟨"png", [[5]]⟩) = Except.ok outImg ∧
      outImg.width = (⟨"png", [[5]]⟩ : Image).width ∧
      outImg.height = (⟨"png", [[5]]⟩ : Image).height) :=
  ⟨by decide, compose_output_dims ⟨"png", [[1]]⟩ ⟨"png", [[5]]⟩ {}
    (Buffer.ok ⟨"png", [[5]]⟩) { input := some (Buffer.ok ⟨"png", [[5]]⟩) }
    (by decide)⟩

/-- Claim C10: any successful composition of two decodable buffers returns
a PNG-encoded buffer, whatever the encoded formats of A and B were. -/
theorem compose_output_png (a b : Image) (opts : CompositeOptions)
    (out : Buffer) (optsAfter : CompositeOptions)
    (h : composeImages (Buffer.ok a) (Buffer.ok b) opts =
      Except.ok (out, optsAfter)) :
    ∃ outImg, decode out = Except.ok outImg ∧ outImg.format = "png" := by
  rw [composeImages_ok_eq] at h
  simp only [Except.ok.injEq, Prod.mk.injEq] at h
  obtain ⟨hout, -⟩ := h
  subst hout
  exact ⟨_, rfl, rfl⟩

theorem compose_output_png_witness :
    composeImages (Buffer.ok ⟨"jpeg", [[1, 2], [3, 4]]⟩)
        (Buffer.ok ⟨"webp", [[9]]⟩) {} =
      Except.ok (Buffer.ok ⟨"png", [[9]]⟩,
        { input := some (Buffer.ok ⟨"webp", [[9]]⟩) }) ∧
    (∃ outImg, decode (Buffer.ok ⟨"png", [[9]]⟩) = Except.ok outImg ∧
      outImg.format = "png") :=
  ⟨by decide, compose_output_png ⟨"jpeg", [[1, 2], [3, 4]]⟩ ⟨"webp", [[9]]⟩ {}
    (Buffer.ok ⟨"png", [[9]]⟩) { input := some (Buffer.ok ⟨"webp", [[9]]⟩) }
    (by decide)⟩

/-- Claim C5 counterexample: `composeImages` does not leave the
caller-supplied composite options record unchanged — at this concrete
input, the record after the call carries B as its `input` field and
differs from the record the caller passed in. -/
theorem compose_mutates_options_counterexample :
    composeImages (Buffer.ok ⟨"png", [[1]]⟩) (Buffer.ok ⟨"png", [[2]]⟩)
        { blend := some "over" } =
      Except.ok (Buffer.ok ⟨"png", [[2]]⟩,
        { input := some (Buffer.ok ⟨"png", [[2]]⟩), blend := some "over" }) ∧
    ({ input := some (Buffer.ok ⟨"png", [[2]]⟩), blend := some "over" } :
        CompositeOptions) ≠ { blend := some "over" } :=
  ⟨by decide, by decide⟩

/-- Claim C5 (amended): on every successful call, the caller-supplied
composite options record ends up mutated in exactly one way — its `input`
field is overwritten with buffer B; every other field is unchanged. -/
theorem compose_options_mutation (bufferA bufferB : Buffer)
    (opts : CompositeOptions) (result : Buffer × CompositeOptions)
    (h : composeImages bufferA bufferB opts = Except.ok result) :
    result.2 = { opts with input := some bufferB } := by
  unfold composeImages at h
  rw [wrapFailure_eq_ok] at h
  simp only [except_bind_eq_ok] at h
  obtain ⟨b1, -, md, -, b3, -, r4, -, hp⟩ := h
  simp only [pure, Except.pure, Except.ok.injEq] at hp
  subst hp
  rfl

theorem compose_options_mutation_witness :
    composeImages (Buffer.ok ⟨"png", [[3]]⟩) (Buffer.ok ⟨"png", [[4]]⟩) {} =
        Except.ok (Buffer.ok ⟨"png", [[4]]⟩,
          { input := some (Buffer.ok ⟨"png", [[4]]⟩) }) ∧
    (Buffer.ok ⟨"png", [[4]]⟩,
        ({ input := some (Buffer.ok ⟨"png", [[4]]⟩) } : CompositeOptions)).2 =
      { ({} : CompositeOptions) with input := some (Buffer.ok ⟨"png", [[4]]⟩) } :=
  ⟨by decide, compose_options_mutation (Buffer.ok ⟨"png", [[3]]⟩)
    (Buffer.ok ⟨"png", [[4]]⟩) {}
    (Buffer.ok ⟨"png", [[4]]⟩, { input := some (Buffer.ok ⟨"png", [[4]]⟩) })
    (by decide)⟩

/-- Claim C3: when the engine fails, the Resize operation does carry the
engine's original message, but its summary is the literal
"Error converting image" — it does not identify the Resize operation —
and the horizontal flip's summary says "vertical".  Evaluation at the
failing inputs exhibits the divergence from the claim. -/
theorem resize_failure_summary_bug :
    resizeImage (Buffer.corrupt "Input buffer contains unsupported image format")
        { width := some 10, height := some 10 } =
      Except.error ⟨"Input buffer contains unsupported image format",
        "Error converting image"⟩ ∧
    "Error converting image" ≠ "Error resizing image" ∧
    horizontalFlipImage (Buffer.corrupt "bad header") =
      Except.error ⟨"bad header", "Error flipping image vertical"⟩ ∧
    "Error flipping image vertical" ≠ "Error flipping image horizontal" :=
  ⟨rfl, by decide, rfl, by decide⟩

/-- Claim C4 counterexample: supplying a fit policy in the options field
changes nothing — `resizeImage` returns the same buffer with and without
it — even though the same policy difference, passed to the engine's
resize call, changes the engine's output. -/
theorem resize_options_no_influence_counterexample :
    resizeImage (Buffer.ok ⟨"png", [[1, 2, 3], [4, 5, 6], [7, 8, 9]]⟩)
        { width := some 1, height := some 1,
          options := some { fit := some "contain" } } =
      resizeImage (Buffer.ok ⟨"png", [[1, 2, 3], [4, 5, 6], [7, 8, 9]]⟩)
        { width := some 1, height := some 1 } ∧
    runPipeline (Buffer.ok ⟨"png", [[1, 2, 3], [4, 5, 6], [7, 8, 9]]⟩)
        [SharpOp.resize { width := some 1, height := some 1, fit := some "contain" }] ≠
      runPipeline (Buffer.ok ⟨"png", [[1, 2, 3], [4, 5, 6], [7, 8, 9]]⟩)
        [SharpOp.resize { width := some 1, height := some 1 }] :=
  ⟨rfl, by decide⟩

/-- Claim C4 (amended): the Resize operation scales to the given width and
height under the engine's default fit, position and kernel policy; the
caller-supplied `options` field of the resize properties is accepted but
ignored — it never influences the engine call or the result. -/
theorem resize_ignores_options (imageBuffer : Buffer)
    (resizeProperties : ResizeProperties) :
    resizeImage imageBuffer resizeProperties =
      resizeImage imageBuffer { resizeProperties with options := none } := rfl

/-- Claim C6: the Effects operation applies a threshold pre-pass,
re-deriving the working buffer, exactly when a nonzero threshold is
supplied, and then runs one pipeline consisting of median, blur, negate,
grayscale, HSL modulation and tint in that fixed order, with fallbacks
median = 3, blur = 0.3, brightness = saturation = lightness = 1, hue = 0
resolved at the operation boundary. -/
theorem effects_fixed_order (imageBuffer : Buffer) (p : EffectsProperties) :
    setImageEffects imageBuffer p =
      wrapFailure "Error applying image effects" (do
        let workingBuffer ←
          if jsTruthyNat p.threshold then
            runPipeline imageBuffer
              [SharpOp.threshold (jsOrNat p.threshold 120)
                ⟨jsOrBool p.thresholdGrayscale false⟩]
          else pure imageBuffer
        runPipeline workingBuffer
          [SharpOp.median (jsOrNat p.median 3),
            SharpOp.blur (jsOrRat p.blur (3 / 10)),
            SharpOp.negate (jsOrBool p.negate false),
            SharpOp.grayscale (jsOrBool p.grayscale false),
            SharpOp.modulate ⟨jsOrRat p.brightness 1, jsOrRat p.saturation 1,
              jsOrRat p.hue 0, jsOrRat p.lightness 1⟩,
            SharpOp.tint p.tint]) := rfl

/-- Claim C9: explicitly passing 0 for any of the median, blur,
brightness, saturation or lightness knobs is indistinguishable from
omitting the knob: JavaScript `||` coerces the 0 to the documented
fallback, so a caller can never select the value 0. -/
theorem effects_zero_equals_absent (imageBuffer : Buffer)
    (p : EffectsProperties) :
    (setImageEffects imageBuffer { p with median := some 0 } =
      setImageEffects imageBuffer { p with median := none }) ∧
    (setImageEffects imageBuffer { p with blur := some 0 } =
      setImageEffects imageBuffer { p with blur := none }) ∧
    (setImageEffects imageBuffer { p with brightness := some 0 } =
      setImageEffects imageBuffer { p with brightness := none }) ∧
    (setImageEffects imageBuffer { p with saturation := some 0 } =
      setImageEffects imageBuffer { p with saturation := none }) ∧
    (setImageEffects imageBuffer { p with lightness := some 0 } =
      setImageEffects imageBuffer { p with lightness := none }) := by
  refine ⟨?_, ?_, ?_, ?_, ?_⟩ <;> rfl

/-- Claim C7: a crop rectangle exceeding the image's bounds always makes
the Crop operation raise the Processing Failure for cropping; no partial
or clamped buffer is ever returned. -/
theorem crop_out_of_bounds (img : Image) (c : CropProperties)
    (h : c.left + c.width > img.width ∨ c.top + c.height > img.height) :
    cropImage (Buffer.ok img) c =
      Except.error ⟨"extract_area: bad extract area", "Error cropping image"⟩ := by
  have hc : c.left + c.width > img.width ∨ c.top + c.height > img.height ∨
      c.width = 0 ∨ c.height = 0 := by
    rcases h with h | h
    · exact Or.inl h
    · exact Or.inr (Or.inl h)
  unfold cropImage SharpInstance.toBuffer runPipeline imageProcessor
    SharpInstance.extract SharpInstance.addOp
  simp [decode, applyOp, List.foldlM, wrapFailure, hc]

theorem crop_out_of_bounds_witness :
    ((⟨0, 0, 2, 1⟩ : CropProperties).left + (⟨0, 0, 2, 1⟩ : CropProperties).width >
        (⟨"png", [[1]]⟩ : Image).width ∨
      (⟨0, 0, 2, 1⟩ : CropProperties).top + (⟨0, 0, 2, 1⟩ : CropProperties).height >
        (⟨"png", [[1]]⟩ : Image).height) ∧
    cropImage (Buffer.ok ⟨"png", [[1]]⟩) ⟨0, 0, 2, 1⟩ =
      Except.error ⟨"extract_area: bad extract area", "Error cropping image"⟩ :=
  ⟨by decide, crop_out_of_bounds _ _ (by decide)⟩

/-- Claim C8: applying the vertical flip twice returns a buffer
pixel-identical to the decodable input, and likewise for the horizontal
flip — double application is the identity. -/
theorem double_flip_identity (img : Image) :
    (verticalFlipImage (Buffer.ok img) >>= fun buf => verticalFlipImage buf) =
        Except.ok (Buffer.ok img) ∧
    (horizontalFlipImage (Buffer.ok img) >>= fun buf => horizontalFlipImage buf) =
        Except.ok (Buffer.ok img) := by
  constructor <;>
    simp [verticalFlipImage, horizontalFlipImage, SharpInstance.toBuffer,
      runPipeline, imageProcessor, SharpInstance.flip, SharpInstance.flop,
      SharpInstance.addOp, decode, applyOp, List.foldlM, wrapFailure,
      List.map_map, Function.comp_def]

end ImageProcessor
